import Mathlib

/-!
Shallow embedding of the client-side dashboard code:
`static/js/socket.js` (class `SocketManager`: connection state machine,
exponential backoff, event callback registry, polling fallback) and
`static/js/script.js` (class `MuseBotDashboard`: command execution).

External effects (the socket.io transport, `fetch`, timers) are modelled by
explicit parameters: a fallible external call is an `Except String _`
argument, `Math.random()` is a rational argument, and timers/intervals are
counters recorded in the state.  Every method of the source is translated
statement by statement.
-/

namespace SocketManager

/-- Payload of an internally dispatched event (the second argument of
`triggerEvent` in the source). -/
inductive EvPayload
  | noData
  | connChange (connected : Bool) (reason : Option String)
  | attemptNum (n : Nat)
  | errData (e : Option String)
  | pollData (d : String)
deriving Repr, DecidableEq

/-- Observable state of a `SocketManager` instance.  Fields `socketExists`,
`reconnectAttempts`, `isConnected` and `pollingActive` mirror the instance
fields `socket` (null or not), `reconnectAttempts`, `isConnected`,
`pollingInterval`; the remaining fields record the externally visible
effects: `pollingSetups` counts `setInterval` calls made by
`setupPollingFallback`, `pendingReconnects` counts outstanding `setTimeout`
reconnect timers, `scheduleCalls` counts invocations of `scheduleReconnect`,
`backoffAttempts` records the attempt counter at each backoff-delay
computation, `emitted` logs `triggerEvent` calls and `outbound` logs
`socket.emit` calls. -/
structure SMState where
  socketExists : Bool
  reconnectAttempts : Nat
  isConnected : Bool
  pollingActive : Bool
  pollingSetups : Nat
  pendingReconnects : Nat
  scheduleCalls : Nat
  backoffAttempts : List Nat
  emitted : List (String × EvPayload)
  outbound : List (String × Option String)
deriving Repr, DecidableEq

/-- `this.maxReconnectAttempts = 10` (constructor). -/
def maxReconnectAttempts : Nat := 10

/-- `this.reconnectDelay = 1000` (constructor), in milliseconds. -/
def reconnectDelayMs : ℚ := 1000

/-- The fixed polling interval of `setupPollingFallback`:
`setInterval(..., 5000)`. -/
def pollIntervalMs : Nat := 5000

/-- A call of `this.triggerEvent(name, data)`, viewed from the manager:
the event occurrence is appended to the log. -/
def logEvent (s : SMState) (name : String) (p : EvPayload) : SMState :=
  { s with emitted := s.emitted ++ [(name, p)] }

/-- `calculateReconnectDelay()`: exact rational model of
`Math.min(this.reconnectDelay * Math.pow(1.5, this.reconnectAttempts), 30000)
 + Math.random() * 1000`, with `rand` standing for the `Math.random()`
draw (a value in `[0, 1)`). -/
def calculateReconnectDelay (reconnectDelay : ℚ) (reconnectAttempts : Nat)
    (rand : ℚ) : ℚ :=
  min (reconnectDelay * (3 / 2) ^ reconnectAttempts) 30000 + rand * 1000

/-- `setupPollingFallback()`: triggers `polling_started`, creates one new
polling interval and stores it in `this.pollingInterval`. -/
def setupPollingFallback (s : SMState) : SMState :=
  let s := logEvent s "polling_started" .noData
  { s with pollingActive := true, pollingSetups := s.pollingSetups + 1 }

/-- `handleReconnectFailed()`: triggers `reconnect_failed`, then runs
`setupPollingFallback()`. -/
def handleReconnectFailed (s : SMState) : SMState :=
  setupPollingFallback (logEvent s "reconnect_failed" .noData)

/-- `scheduleReconnect()`: if `reconnectAttempts >= maxReconnectAttempts`,
run `handleReconnectFailed()` and return; otherwise compute the backoff
delay (the attempt counter used is recorded in `backoffAttempts`) and
schedule one `attemptReconnect` timer. -/
def scheduleReconnect (s : SMState) : SMState :=
  let s := { s with scheduleCalls := s.scheduleCalls + 1 }
  if s.reconnectAttempts ≥ maxReconnectAttempts then
    handleReconnectFailed s
  else
    { s with pendingReconnects := s.pendingReconnects + 1,
             backoffAttempts := s.backoffAttempts ++ [s.reconnectAttempts] }

/-- `handleConnect()`: set `isConnected`, reset the attempt counter,
trigger `connection_change` with `connected: true`, and send
`get_initial_data` over the socket. -/
def handleConnect (s : SMState) : SMState :=
  let s := { s with isConnected := true, reconnectAttempts := 0 }
  let s := logEvent s "connection_change" (.connChange true none)
  { s with outbound := s.outbound ++ [("get_initial_data", none)] }

/-- `handleDisconnect(reason)`: clear `isConnected`, trigger
`connection_change` with `connected: false` and the reason, and schedule a
reconnect unless the reason is the explicit local close. -/
def handleDisconnect (reason : String) (s : SMState) : SMState :=
  let s := { s with isConnected := false }
  let s := logEvent s "connection_change" (.connChange false (some reason))
  if reason ≠ "io client disconnect" then scheduleReconnect s else s

/-- `handleConnectionError(error)`: trigger `connection_error` and schedule
a reconnect.  (The `catch` branch of `connect()` calls it without an
argument, hence the `Option`.) -/
def handleConnectionError (e : Option String) (s : SMState) : SMState :=
  scheduleReconnect (logEvent s "connection_error" (.errData e))

/-- `connect()`: the `io({...})` transport construction may throw; the whole
body is wrapped in `try/catch`, and the `catch` branch calls
`handleConnectionError()`.  On success `this.socket` is set. -/
def connect (ctorRes : Except String Unit) (s : SMState) : SMState :=
  match ctorRes with
  | .ok _ => { s with socketExists := true }
  | .error _ => handleConnectionError none s

/-- `attemptReconnect()`: return early when connected; otherwise increment
the attempt counter, then call `this.socket.connect()` when a socket
exists (NOT wrapped in any `try/catch`: an exception from the transport,
modelled by `sockConnectRes`, propagates to the caller) or delegate to
`connect()` when no socket exists. -/
def attemptReconnect (sockConnectRes : Except String Unit)
    (ctorRes : Except String Unit) (s : SMState) : Except String SMState :=
  if s.isConnected then .ok s
  else
    let s := { s with reconnectAttempts := s.reconnectAttempts + 1 }
    if s.socketExists then
      match sockConnectRes with
      | .ok _ => .ok s
      | .error e => .error e
    else
      .ok (connect ctorRes s)

/-- The body of the interval callback in `setupPollingFallback` together
with `pollForUpdates()`: when connected, clear the interval and return;
otherwise fetch `/api/poll` (`fetchRes`: `.error` = rejected fetch,
`.ok none` = response not ok, `.ok (some d)` = ok with body `d`) and on an
ok response trigger `polling_update`; fetch errors are caught and only
logged. -/
def pollTick (fetchRes : Except String (Option String)) (s : SMState) :
    SMState :=
  if s.isConnected then { s with pollingActive := false }
  else
    match fetchRes with
    | .ok (some d) => logEvent s "polling_update" (.pollData d)
    | .ok none => s
    | .error _ => s

/-- Public `emit(event, data)`: forward to `socket.emit` only when
`this.isConnected && this.socket`; otherwise do nothing. -/
def emit (event : String) (data : Option String) (s : SMState) : SMState :=
  if s.isConnected && s.socketExists then
    { s with outbound := s.outbound ++ [(event, data)] }
  else s

/-- Transport / timer events driving the manager, as wired in
`setupSocketEvents` and `scheduleReconnect`. -/
inductive TEv
  | tConnected
  | tConnectError (e : Option String)
  | tDisconnected (reason : String)
  | tTimer
  | tPollTick (fetchRes : Except String (Option String))
deriving Repr

/-- One event-loop step of the manager.  A firing reconnect timer consumes
one pending timer and runs `attemptReconnect` in the case where the
transport calls return normally (transport failures then arrive later as
`tConnectError` events, as socket.io delivers them asynchronously). -/
def step (s : SMState) (ev : TEv) : SMState :=
  match ev with
  | .tConnected => handleConnect s
  | .tConnectError e => handleConnectionError e s
  | .tDisconnected r => handleDisconnect r s
  | .tTimer =>
      if s.pendingReconnects = 0 then s
      else
        let s := { s with pendingReconnects := s.pendingReconnects - 1 }
        match attemptReconnect (.ok ()) (.ok ()) s with
        | .ok s => s
        | .error _ => s
  | .tPollTick f => pollTick f s

/-- Run the manager over a list of event-loop events. -/
def run (s : SMState) (evs : List TEv) : SMState :=
  evs.foldl step s

/-- State right after the constructor ran `init()` and the initial
`connect()` constructed the transport: a socket exists, nothing is
connected yet, all counters are zero. -/
def initState : SMState :=
  { socketExists := true, reconnectAttempts := 0, isConnected := false,
    pollingActive := false, pollingSetups := 0, pendingReconnects := 0,
    scheduleCalls := 0, backoffAttempts := [], emitted := [], outbound := [] }

/-- An execution in which ten consecutive reconnect attempts fail (each
`connect_error` schedules a timer, each timer fires and the attempt fails
again), followed by two further transport errors. -/
def exhaustTrace : List TEv :=
  (List.replicate 10 [TEv.tConnectError none, TEv.tTimer]).flatten ++
    [TEv.tConnectError none, TEv.tConnectError none]

/-- A trace in which the initial connection fails three consecutive times:
each failure schedules a backoff timer; the first two timers fire and the
attempts fail again. -/
def failThriceTrace : List TEv :=
  [TEv.tConnectError none, TEv.tTimer, TEv.tConnectError none, TEv.tTimer,
   TEv.tConnectError none]

/-! ### Event callback registry (`this.eventCallbacks`, `on`/`off`/`triggerEvent`)

`this.eventCallbacks` is a JS `Map` from event name to array of callback
references; a `Map` keeps unique keys in insertion order, modelled as an
association list with unique keys.  Callbacks are compared by reference
(`indexOf` uses `===`), modelled by identifying a callback with a numeric
handle; a callback's behaviour when invoked is an environment
`Nat → Except String Unit` (`.error` = the callback throws). -/

/-- The callback registry: event name to ordered list of callback handles. -/
abbrev Registry : Type := List (String × List Nat)

/-- `Map.get`: value of the first (unique) entry with the given key. -/
def regFind : Registry → String → Option (List Nat)
  | [], _ => none
  | (e', l) :: rest, e => if e' = e then some l else regFind rest e

/-- `on(event, callback)`: create an empty entry if absent (a new `Map` key
goes last), then push the callback at the end of the entry's array.
(`on` is a Lean keyword, hence the primed name.) -/
def on' : Registry → String → Nat → Registry
  | [], e, cb => [(e, [cb])]
  | (e', l) :: rest, e, cb =>
      if e' = e then (e', l ++ [cb]) :: rest
      else (e', l) :: on' rest e cb

/-- `off(event, callback)`: when the event has an entry, `indexOf` the
callback and `splice` out the first matching instance; when `indexOf`
returns `-1` nothing changes.  `List.erase` is exactly that. -/
def off : Registry → String → Nat → Registry
  | [], _, _ => []
  | (e', l) :: rest, e, cb =>
      if e' = e then (e', l.erase cb) :: rest
      else (e', l) :: off rest e cb

/-- The body of the `forEach` in `triggerEvent`: invoke one callback inside
`try/catch`; the accumulator collects (invoked handles, handles whose
invocation threw and was caught and logged). -/
def invokeOne (env : Nat → Except String Unit) (acc : List Nat × List Nat)
    (cb : Nat) : List Nat × List Nat :=
  match env cb with
  | .ok _ => (acc.1 ++ [cb], acc.2)
  | .error _ => (acc.1 ++ [cb], acc.2 ++ [cb])

/-- `triggerEvent(event, data)`: when the event has registered callbacks,
invoke each of them in order, each inside `try/catch`.  Returns (invoked
handles in invocation order, handles that threw). -/
def triggerEvent (env : Nat → Except String Unit) (r : Registry)
    (event : String) : List Nat × List Nat :=
  match regFind r event with
  | none => ([], [])
  | some cbs => cbs.foldl (invokeOne env) ([], [])

end SocketManager

namespace MuseBotDashboard

/-- The JSON body returned by `POST /api/execute`: fields `message` and
`success` as read by `executeCommand`. -/
structure CmdResponse where
  message : String
  success : Bool
deriving Repr, DecidableEq

/-- `executeCommand(command)` from `static/js/script.js`: when not
connected, show only the `Not connected to bot` error notification and
return; otherwise POST the command to `/api/execute` (the fetch outcome is
`fetchRes`: `.ok` with the parsed JSON, `.error` when the fetch or the JSON
parse rejects) and show the response message, or the failure notification
when the fetch rejected — the rejection is caught, never rethrown.
Returns (HTTP requests issued as (url, command body), notifications shown
as (message, kind)). -/
def executeCommand (isConnected : Bool)
    (fetchRes : Except String CmdResponse) (command : String) :
    List (String × String) × List (String × String) :=
  if !isConnected then
    ([], [("Not connected to bot", "error")])
  else
    match fetchRes with
    | .ok d =>
        ([("/api/execute", command)],
         [(d.message, if d.success then "success" else "error")])
    | .error _ =>
        ([("/api/execute", command)],
         [("Failed to execute command", "error")])

end MuseBotDashboard

/-!
## Theorems

Verification of the spec's claims against the embedding above.
-/

namespace SocketManager

/-- `triggerEvent` appends one record to the event log. -/
theorem logEvent_emitted (s : SMState) (n : String) (p : EvPayload) :
    (logEvent s n p).emitted = s.emitted ++ [(n, p)] := rfl

/-- `scheduleReconnect` only appends to the event log. -/
theorem scheduleReconnect_emitted_extends (s : SMState) :
    ∃ t, (scheduleReconnect s).emitted = s.emitted ++ t := by
  by_cases h : s.reconnectAttempts ≥ maxReconnectAttempts
  · exact ⟨[("reconnect_failed", .noData), ("polling_started", .noData)],
      by simp [scheduleReconnect, handleReconnectFailed, setupPollingFallback,
        logEvent, h]⟩
  · exact ⟨[], by simp [scheduleReconnect, h]⟩

/-- `scheduleReconnect` increments the call counter in both branches. -/
theorem scheduleReconnect_scheduleCalls (s : SMState) :
    (scheduleReconnect s).scheduleCalls = s.scheduleCalls + 1 := by
  by_cases h : s.reconnectAttempts ≥ maxReconnectAttempts <;>
    simp [scheduleReconnect, handleReconnectFailed, setupPollingFallback,
      logEvent, h]

/-- Below the attempt bound, `scheduleReconnect` schedules one timer. -/
theorem scheduleReconnect_pending_of_lt (s : SMState)
    (h : s.reconnectAttempts < maxReconnectAttempts) :
    (scheduleReconnect s).pendingReconnects = s.pendingReconnects + 1 := by
  simp [scheduleReconnect, not_le.mpr h]

/-- `handleConnectionError` leaves a `connection_error` record in the
event log. -/
theorem handleConnectionError_emitted_mem (e : Option String) (s : SMState) :
    ("connection_error", EvPayload.errData e) ∈
      (handleConnectionError e s).emitted := by
  obtain ⟨t, ht⟩ := scheduleReconnect_emitted_extends
    (logEvent s "connection_error" (.errData e))
  rw [handleConnectionError, ht, logEvent_emitted]
  simp

/-- **C1**: for every attempt count `n` below `maxReconnectAttempts` and
every `Math.random()` draw `r ∈ [0, 1)`, the computed delay lies within
`[min(1000·1.5^n, 30000), min(1000·1.5^n, 30000) + 1000)` — the base part
capped at the 30000 ms ceiling; and in the execution where the connection
fails three consecutive times, the three backoff computations use attempt
counts 0, 1, 2, the third delay being `2250 + jitter` ms. -/
theorem backoff_delay_within_bounds (n : Nat) (r : ℚ)
    (hn : n < maxReconnectAttempts) (h0 : 0 ≤ r) (h1 : r < 1) :
    (min (1000 * (3 / 2 : ℚ) ^ n) 30000 ≤
        calculateReconnectDelay reconnectDelayMs n r ∧
      calculateReconnectDelay reconnectDelayMs n r <
        min (1000 * (3 / 2 : ℚ) ^ n) 30000 + 1000 ∧
      min (1000 * (3 / 2 : ℚ) ^ n) 30000 ≤ 30000) ∧
    ((run initState failThriceTrace).backoffAttempts = [0, 1, 2] ∧
      calculateReconnectDelay reconnectDelayMs 2 r = 2250 + r * 1000) := by
  have hr0 : (0 : ℚ) ≤ r * 1000 := mul_nonneg h0 (by norm_num)
  have hrlt : r * 1000 < 1000 := by nlinarith
  refine ⟨⟨?_, ?_, min_le_right _ _⟩, ?_, ?_⟩
  · unfold calculateReconnectDelay reconnectDelayMs
    linarith
  · unfold calculateReconnectDelay reconnectDelayMs
    linarith
  · rfl
  · unfold calculateReconnectDelay reconnectDelayMs
    norm_num

/-- Witness for the backoff bounds at `n = 2`, `r = 1/2`. -/
theorem backoff_delay_within_bounds_witness :
    2 < maxReconnectAttempts ∧ (0 : ℚ) ≤ 1 / 2 ∧ (1 / 2 : ℚ) < 1 ∧
    ((min (1000 * (3 / 2 : ℚ) ^ 2) 30000 ≤
        calculateReconnectDelay reconnectDelayMs 2 (1 / 2) ∧
      calculateReconnectDelay reconnectDelayMs 2 (1 / 2) <
        min (1000 * (3 / 2 : ℚ) ^ 2) 30000 + 1000 ∧
      min (1000 * (3 / 2 : ℚ) ^ 2) 30000 ≤ 30000) ∧
    ((run initState failThriceTrace).backoffAttempts = [0, 1, 2] ∧
      calculateReconnectDelay reconnectDelayMs 2 (1 / 2) =
        2250 + (1 / 2 : ℚ) * 1000)) :=
  ⟨by norm_num [maxReconnectAttempts], by norm_num, by norm_num,
    backoff_delay_within_bounds 2 (1 / 2) (by norm_num [maxReconnectAttempts])
      (by norm_num) (by norm_num)⟩

/-- **C2, counterexample**: in the execution where ten consecutive
reconnect attempts fail and two further transport errors arrive,
`reconnect_failed` is emitted twice and `setupPollingFallback` runs twice
(two polling intervals are created) — not exactly once as claimed. -/
theorem reconnect_failed_emitted_twice :
    ((run initState exhaustTrace).emitted.filter
        (fun p => p.1 == "reconnect_failed")).length = 2 ∧
    (run initState exhaustTrace).pollingSetups = 2 ∧
    (run initState exhaustTrace).reconnectAttempts = maxReconnectAttempts :=
  ⟨rfl, rfl, rfl⟩

/-- **C2, amended**: once the attempt counter has reached
`maxReconnectAttempts`, EVERY further `scheduleReconnect` call emits one
`reconnect_failed` event and runs `setupPollingFallback` once more
(creating one more polling interval); the failover is once per triggering
call, with no once-per-execution guard. -/
theorem failover_per_exhausted_schedule (s : SMState)
    (h : s.reconnectAttempts ≥ maxReconnectAttempts) :
    (scheduleReconnect s).emitted = s.emitted ++
      [("reconnect_failed", .noData), ("polling_started", .noData)] ∧
    (scheduleReconnect s).pollingSetups = s.pollingSetups + 1 ∧
    (scheduleReconnect s).pendingReconnects = s.pendingReconnects := by
  refine ⟨?_, ?_, ?_⟩ <;>
    simp [scheduleReconnect, handleReconnectFailed, setupPollingFallback,
      logEvent, h]

/-- Witness for the per-call failover at an exhausted counter. -/
theorem failover_per_exhausted_schedule_witness :
    ({ initState with reconnectAttempts := 10 } : SMState).reconnectAttempts ≥
      maxReconnectAttempts ∧
    ((scheduleReconnect { initState with reconnectAttempts := 10 }).emitted =
      ({ initState with reconnectAttempts := 10 } : SMState).emitted ++
        [("reconnect_failed", .noData), ("polling_started", .noData)] ∧
    (scheduleReconnect { initState with reconnectAttempts := 10 }).pollingSetups =
      ({ initState with reconnectAttempts := 10 } : SMState).pollingSetups + 1 ∧
    (scheduleReconnect { initState with reconnectAttempts := 10 }).pendingReconnects =
      ({ initState with reconnectAttempts := 10 } : SMState).pendingReconnects) :=
  ⟨by decide, failover_per_exhausted_schedule _ (by decide)⟩

/-- **C3, counterexample**: with an existing socket whose `connect()` call
throws, `attemptReconnect` propagates the exception to its caller —
`this.socket.connect()` is not wrapped in any `try/catch`. -/
theorem attemptReconnect_propagates_transport_error :
    attemptReconnect (.error "transport failure") (.ok ()) initState =
      .error "transport failure" := rfl

/-- **C3, amended**: when no socket exists yet, `attemptReconnect`
delegates to `connect()`, whose whole body is in `try/catch`: it never
throws, and a transport-construction error is surfaced through the emitted
`connection_error` event. -/
theorem attemptReconnect_new_socket_never_throws (s : SMState)
    (sockConnectRes ctorRes : Except String Unit)
    (h : s.socketExists = false) :
    ∃ s', attemptReconnect sockConnectRes ctorRes s = .ok s' ∧
      (∀ e, s.isConnected = false → ctorRes = .error e →
        ("connection_error", EvPayload.errData none) ∈ s'.emitted) := by
  by_cases hc : s.isConnected = true
  · refine ⟨s, by simp [attemptReconnect, hc], ?_⟩
    intro e hconn
    rw [hc] at hconn
    cases hconn
  · refine ⟨connect ctorRes { s with reconnectAttempts := s.reconnectAttempts + 1 },
      by simp [attemptReconnect, hc, h], ?_⟩
    intro e _ hce
    subst hce
    exact handleConnectionError_emitted_mem none
      { s with reconnectAttempts := s.reconnectAttempts + 1 }

/-- Witness: a reconnect attempt with no socket and a throwing transport
constructor returns normally. -/
theorem attemptReconnect_new_socket_never_throws_witness :
    ∃ s', attemptReconnect (.ok ()) (.error "boom")
        { initState with socketExists := false } = .ok s' ∧
      (∀ e, ({ initState with socketExists := false } : SMState).isConnected = false →
        (Except.error "boom" : Except String Unit) = .error e →
        ("connection_error", EvPayload.errData none) ∈ s'.emitted) :=
  attemptReconnect_new_socket_never_throws _ (.ok ()) (.error "boom") rfl

end SocketManager

namespace SocketManager

/-- A callback throws when its behaviour under `env` is an error. -/
def cbThrows (env : Nat → Except String Unit) (cb : Nat) : Bool :=
  match env cb with
  | .ok _ => false
  | .error _ => true

/-- The `forEach` loop of `triggerEvent` invokes every callback of the
list, in order, and logs exactly the throwing ones. -/
theorem foldl_invokeOne (env : Nat → Except String Unit) (cbs : List Nat)
    (acc : List Nat × List Nat) :
    cbs.foldl (invokeOne env) acc =
      (acc.1 ++ cbs, acc.2 ++ cbs.filter (cbThrows env)) := by
  induction cbs generalizing acc with
  | nil => simp
  | cons c cs ih =>
      rw [List.foldl_cons]
      cases hc : env c <;>
        simp [invokeOne, hc, ih, cbThrows, List.filter_cons]

/-- **C4**: for every callback environment (including ones in which some
callbacks throw), `triggerEvent` invokes all callbacks registered for the
event, in registration order; the throwing ones are exactly the caught and
logged ones, and they block nothing. -/
theorem triggerEvent_runs_all_in_order (env : Nat → Except String Unit)
    (r : Registry) (event : String) (cbs : List Nat)
    (h : regFind r event = some cbs) :
    (triggerEvent env r event).1 = cbs ∧
    (triggerEvent env r event).2 = cbs.filter (cbThrows env) := by
  unfold triggerEvent
  rw [h]
  simp [foldl_invokeOne]

/-- Witness: three callbacks registered on `"x"`, the second one throwing;
all three run in order and only the second is logged as caught. -/
theorem triggerEvent_runs_all_in_order_witness :
    (triggerEvent (fun cb => if cb = 2 then .error "boom" else .ok ())
        (on' (on' (on' [] "x" 1) "x" 2) "x" 3) "x").1 = [1, 2, 3] ∧
    (triggerEvent (fun cb => if cb = 2 then .error "boom" else .ok ())
        (on' (on' (on' [] "x" 1) "x" 2) "x" 3) "x").2 =
      [1, 2, 3].filter
        (cbThrows (fun cb => if cb = 2 then .error "boom" else .ok ())) :=
  triggerEvent_runs_all_in_order
    (fun cb => if cb = 2 then .error "boom" else .ok ())
    (on' (on' (on' [] "x" 1) "x" 2) "x" 3) "x" [1, 2, 3] rfl

/-- `off` maps the event's own entry through `List.erase`. -/
theorem regFind_off_self (r : Registry) (e : String) (cb : Nat) :
    regFind (off r e cb) e = (regFind r e).map (fun l => l.erase cb) := by
  induction r with
  | nil => rfl
  | cons p rest ih =>
      obtain ⟨a, l⟩ := p
      by_cases ha : a = e
      · simp [off, regFind, ha]
      · simp [off, regFind, ha, ih]

/-- `off` leaves every other event's entry unchanged. -/
theorem regFind_off_other (r : Registry) (e : String) (cb : Nat)
    (e' : String) (h : e' ≠ e) :
    regFind (off r e cb) e' = regFind r e' := by
  induction r with
  | nil => rfl
  | cons p rest ih =>
      obtain ⟨a, l⟩ := p
      by_cases ha : a = e
      · subst ha
        simp [off, regFind, Ne.symm h]
      · simp [off, regFind, ha, ih]

/-- When no registered instance matches (or the event has no entry at
all), `off` returns the registry unchanged. -/
theorem off_unchanged_of_no_match (r : Registry) (e : String) (cb : Nat) :
    (∀ l, regFind r e = some l → cb ∉ l → off r e cb = r) ∧
    (regFind r e = none → off r e cb = r) := by
  induction r with
  | nil => exact ⟨fun _ _ _ => rfl, fun _ => rfl⟩
  | cons p rest ih =>
      obtain ⟨a, l'⟩ := p
      by_cases ha : a = e
      · subst ha
        constructor
        · intro l h hcb
          have hl : l' = l := by simpa [regFind] using h
          subst hl
          simp [off, List.erase_of_not_mem hcb]
        · intro h
          simp [regFind] at h
      · constructor
        · intro l h hcb
          rw [regFind, if_neg ha] at h
          simp [off, ha, ih.1 l h hcb]
        · intro h
          rw [regFind, if_neg ha] at h
          simp [off, ha, ih.2 h]

/-- **C5**: if the callback occurs in the event's list, `off` removes
exactly the first occurrence, keeping the remaining duplicates and every
other callback in their original order; with no matching instance (or no
entry) the registry is unchanged; entries of other events are untouched. -/
theorem off_removes_first_match_only (r : Registry) (e : String) (cb : Nat) :
    (∀ l₁ l₂, regFind r e = some (l₁ ++ cb :: l₂) → cb ∉ l₁ →
        regFind (off r e cb) e = some (l₁ ++ l₂)) ∧
    (∀ l, regFind r e = some l → cb ∉ l → off r e cb = r) ∧
    (regFind r e = none → off r e cb = r) ∧
    (∀ e', e' ≠ e → regFind (off r e cb) e' = regFind r e') := by
  refine ⟨?_, (off_unchanged_of_no_match r e cb).1,
    (off_unchanged_of_no_match r e cb).2,
    fun e' h => regFind_off_other r e cb e' h⟩
  intro l₁ l₂ h hmem
  rw [regFind_off_self, h]
  simp [List.erase_append_right _ hmem, List.erase_cons_head]

/-- Witness: `off` on the registry mapping `"x"` to `[5, 7, 5]` and `"y"`
to `[5]` removes only the first `5` of `"x"` and leaves `"y"` intact. -/
theorem off_removes_first_match_only_witness :
    regFind (off [("x", [5, 7, 5]), ("y", [5])] "x" 5) "x" =
      some ([] ++ [7, 5]) ∧
    regFind (off [("x", [5, 7, 5]), ("y", [5])] "x" 5) "y" =
      regFind [("x", [5, 7, 5]), ("y", [5])] "y" :=
  ⟨(off_removes_first_match_only [("x", [5, 7, 5]), ("y", [5])] "x" 5).1
      [] [7, 5] rfl (by decide),
    (off_removes_first_match_only [("x", [5, 7, 5]), ("y", [5])] "x" 5).2.2.2
      "y" (by decide)⟩

/-- **C6**: a disconnect with the explicit local-close reason
`io client disconnect` performs only the state/record updates and calls
`scheduleReconnect` in no way; every other reason calls it exactly once,
and (below the attempt bound) schedules one reconnect timer. -/
theorem handleDisconnect_schedules_unless_local_close (s : SMState)
    (reason : String) :
    (reason = "io client disconnect" →
      handleDisconnect reason s =
        logEvent { s with isConnected := false } "connection_change"
          (.connChange false (some reason))) ∧
    (reason ≠ "io client disconnect" →
      (handleDisconnect reason s).scheduleCalls = s.scheduleCalls + 1 ∧
      (s.reconnectAttempts < maxReconnectAttempts →
        (handleDisconnect reason s).pendingReconnects =
          s.pendingReconnects + 1)) := by
  constructor
  · intro h
    simp [handleDisconnect, h]
  · intro h
    have h1 : handleDisconnect reason s =
        scheduleReconnect (logEvent { s with isConnected := false }
          "connection_change" (.connChange false (some reason))) := by
      simp [handleDisconnect, h]
    rw [h1]
    constructor
    · rw [scheduleReconnect_scheduleCalls]
      rfl
    · intro hlt
      rw [scheduleReconnect_pending_of_lt]
      · rfl
      · simpa [logEvent] using hlt

/-- Witness: the two disconnect reasons `io client disconnect` and
`transport close` at the initial state. -/
theorem handleDisconnect_schedules_unless_local_close_witness :
    (handleDisconnect "io client disconnect" initState =
      logEvent { initState with isConnected := false } "connection_change"
        (.connChange false (some "io client disconnect"))) ∧
    (handleDisconnect "transport close" initState).scheduleCalls =
      initState.scheduleCalls + 1 :=
  ⟨(handleDisconnect_schedules_unless_local_close initState
      "io client disconnect").1 rfl,
    ((handleDisconnect_schedules_unless_local_close initState
      "transport close").2 (by decide)).1⟩

/-- **C7**: on the transport's `connect` event, the manager records the
connected state, resets the attempt counter to 0, triggers
`connection_change` with `connected: true` and sends `get_initial_data`
over the socket. -/
theorem handleConnect_resets_and_requests (s : SMState) :
    (handleConnect s).isConnected = true ∧
    (handleConnect s).reconnectAttempts = 0 ∧
    (handleConnect s).emitted =
      s.emitted ++ [("connection_change", .connChange true none)] ∧
    (handleConnect s).outbound = s.outbound ++ [("get_initial_data", none)] := by
  refine ⟨rfl, rfl, ?_, ?_⟩ <;> simp [handleConnect, logEvent]

/-- **C8**: the polling interval is the fixed 5000 ms; a polling step never
changes `reconnectAttempts`; once a real connection exists, the tick
cancels the interval and does nothing else; while disconnected, each
successful fetch triggers one `polling_update` with the fetched data. -/
theorem polling_fallback_spec (fetchRes : Except String (Option String))
    (s : SMState) :
    pollIntervalMs = 5000 ∧
    (pollTick fetchRes s).reconnectAttempts = s.reconnectAttempts ∧
    (s.isConnected = true →
      pollTick fetchRes s = { s with pollingActive := false }) ∧
    (s.isConnected = false → ∀ d, fetchRes = .ok (some d) →
      (pollTick fetchRes s).emitted =
        s.emitted ++ [("polling_update", .pollData d)]) := by
  refine ⟨rfl, ?_, ?_, ?_⟩
  · rcases fetchRes with e | v
    · by_cases h : s.isConnected = true <;> simp [pollTick, h]
    · rcases v with _ | d <;> by_cases h : s.isConnected = true <;>
        simp [pollTick, logEvent, h]
  · intro h
    simp [pollTick, h]
  · intro h d hf
    subst hf
    simp [pollTick, h, logEvent]

/-- Witness: a successful poll at the (disconnected) initial state. -/
theorem polling_fallback_spec_witness :
    pollIntervalMs = 5000 ∧
    (pollTick (.ok (some "payload")) initState).reconnectAttempts =
      initState.reconnectAttempts ∧
    (pollTick (.ok (some "payload")) initState).emitted =
      initState.emitted ++ [("polling_update", .pollData "payload")] :=
  ⟨(polling_fallback_spec (.ok (some "payload")) initState).1,
    (polling_fallback_spec (.ok (some "payload")) initState).2.1,
    (polling_fallback_spec (.ok (some "payload")) initState).2.2.2 rfl
      "payload" rfl⟩

/-- **C9**: the public `emit` silently drops the outbound event unless the
manager is connected and a socket exists (the state is returned untouched,
nothing is sent, no error); when connected with a socket, the message is
forwarded to the transport. -/
theorem emit_only_when_connected (s : SMState) (event : String)
    (data : Option String) :
    (¬ (s.isConnected = true ∧ s.socketExists = true) →
      emit event data s = s) ∧
    (s.isConnected = true → s.socketExists = true →
      emit event data s =
        { s with outbound := s.outbound ++ [(event, data)] }) := by
  constructor
  · intro h
    have hb : ¬ ((s.isConnected && s.socketExists) = true) := by
      simpa [Bool.and_eq_true] using h
    simp [emit, hb]
  · intro h1 h2
    simp [emit, h1, h2]

/-- Witness: `emit` at the disconnected initial state is dropped; with the
connected flag set it is forwarded. -/
theorem emit_only_when_connected_witness :
    emit "chat_message" (some "hi") initState = initState ∧
    emit "chat_message" (some "hi") { initState with isConnected := true } =
      { { initState with isConnected := true } with
          outbound := ({ initState with isConnected := true } : SMState).outbound
            ++ [("chat_message", some "hi")] } :=
  ⟨(emit_only_when_connected initState "chat_message" (some "hi")).1
      (by decide),
    (emit_only_when_connected { initState with isConnected := true }
      "chat_message" (some "hi")).2 rfl rfl⟩

end SocketManager

namespace MuseBotDashboard

/-- **C10**: `executeCommand` issues no HTTP request and shows only the
`Not connected to bot` error notification when disconnected; when
connected it POSTs the command to `/api/execute`, and a rejected fetch
produces the failure notification (the function returns normally in every
case — nothing propagates). -/
theorem executeCommand_connection_gate (conn : Bool)
    (fetchRes : Except String CmdResponse) (command : String) :
    (conn = false →
      executeCommand conn fetchRes command =
        ([], [("Not connected to bot", "error")])) ∧
    (conn = true →
      (executeCommand conn fetchRes command).1 =
        [("/api/execute", command)]) ∧
    (conn = true → ∀ e, fetchRes = .error e →
      (executeCommand conn fetchRes command).2 =
        [("Failed to execute command", "error")]) := by
  refine ⟨?_, ?_, ?_⟩
  · intro h
    simp [executeCommand, h]
  · intro h
    rcases fetchRes with d | e <;> simp [executeCommand, h]
  · intro h e he
    subst he
    simp [executeCommand, h]

/-- Witness: a disconnected call and a connected call whose fetch is
rejected. -/
theorem executeCommand_connection_gate_witness :
    executeCommand false (.ok ⟨"done", true⟩) "play" =
      ([], [("Not connected to bot", "error")]) ∧
    (executeCommand true (.error "network down") "play").1 =
      [("/api/execute", "play")] ∧
    (executeCommand true (.error "network down") "play").2 =
      [("Failed to execute command", "error")] :=
  ⟨(executeCommand_connection_gate false (.ok ⟨"done", true⟩) "play").1 rfl,
    (executeCommand_connection_gate true (.error "network down") "play").2.1
      rfl,
    (executeCommand_connection_gate true (.error "network down") "play").2.2
      rfl "network down" rfl⟩

end MuseBotDashboard
